import Mathlib

/-!
# Verification of the deploystack image-scaler HTTP service

Shallow embedding of `app/main.go`: the MIME allow-list (`MimeMap`), the
response writers, and the five route handlers (`createHandler`,
`readHandler`, `updateHandler`, `deleteHandler`, `listHandler`).

The storage backend (`CloudStorage`) and the image mapper (`NewImages`)
are external to the file under verification; they are embedded as an
abstract gateway over an arbitrary state type, with the handlers
additionally returning the trace of gateway calls they perform, so that
claims such as "Create is never invoked" are expressible.  Where a claim
needs a concrete backend (the round-trip law), an in-memory gateway is
modelled from the specification.
-/

namespace Scaler

/-- An HTTP response as produced by `writeResponse`: a status code and a
body string.  (Headers are fixed by `writeResponse` and carry no
per-request information; logging is a side effect not observed by any
claim.) -/
structure Response where
  status : Nat
  body : String
deriving DecidableEq, Repr

/-- Embeds Go `writeResponse(w, status, msg)`: emits the status and the
body unchanged. -/
def writeResponse (status : Nat) (msg : String) : Response :=
  ⟨status, msg⟩

/-- Embeds Go `writeErrorMsg(w, err)`:
`fmt.Sprintf("\x7b\"error\":\"%s\"\x7d", err)` with status 500.  Note the
message is interpolated verbatim, with no JSON escaping. -/
def writeErrorMsg (err : String) : Response :=
  writeResponse 500 ("\x7b\"error\":\"" ++ err ++ "\"\x7d")

/-- Embeds Go `type MimeMap map[string]bool`: only the key set matters
(every stored value is `true`), so the embedding keeps the key set as a
duplicate-free list in first-insertion order. -/
abbrev MimeMap := List String

/-- Embeds Go `NewMimeMap`: inserts each string of `s` as a key. -/
def NewMimeMap (s : List String) : MimeMap :=
  s.foldl (fun m v => if v ∈ m then m else m ++ [v]) []

/-- Embeds Go `MimeMap.Valid`: key membership, exact string equality. -/
def MimeMap.Valid (m : MimeMap) (mimetype : String) : Bool :=
  m.contains mimetype

/-- Embeds Go `strings.TrimRight(s, ", ")`: removes trailing `,` and
space characters. -/
def trimRightCommaSpace (s : String) : String :=
  ⟨(s.data.reverse.dropWhile (fun c => c = ',' ∨ c = ' ')).reverse⟩

/-- Embeds Go `MimeMap.List`: writes every key followed by `", "`, then
trims trailing commas and spaces.  Go map iteration order is
unspecified; the embedding iterates in first-insertion order (the spec
accepts any order). -/
def MimeMap.List (m : MimeMap) : String :=
  trimRightCommaSpace (m.foldl (fun sb k => sb ++ k ++ ", ") "")

/-- The uploaded file as returned by Go `r.FormFile("myFile")`: the
`FileHeader`'s filename and `Content-Type` header, and the content
stream (embedded as a byte list). -/
structure UploadedFile where
  filename : String
  contentType : String
  content : List Nat
deriving DecidableEq, Repr

/-- The part of an HTTP request the create/update handlers consume:
the outcome of `ParseMultipartForm` (whose error the Go code discards)
and the outcome of `FormFile("myFile")`. -/
structure Request where
  parseFormError : Option String
  formFile : Except String UploadedFile

/-- An object descriptor as returned by the storage backend: name,
content bytes, content type. -/
structure ObjectDescriptor where
  name : String
  content : List Nat
  contentType : String
deriving DecidableEq, Repr

/-- One call made by a handler to the storage gateway. -/
inductive GatewayCall where
  | list : GatewayCall
  | read (id : String) : GatewayCall
  | create (name : String) (content : List Nat) : GatewayCall
  | delete (id : String) : GatewayCall
deriving DecidableEq, Repr

/-- The storage gateway (Go `CloudStorage`), abstracted over a backend
state `σ`: each operation either succeeds (returning descriptors or the
new state) or reports an error string. -/
structure Gateway (σ : Type) where
  list : σ → Except String (List ObjectDescriptor)
  read : σ → String → Except String (List ObjectDescriptor)
  create : σ → String → List Nat → Except String σ
  delete : σ → String → Except String σ

/-- The API-facing image representation (Go type produced by
`NewImages`, not in the verified file). -/
structure Image where
  name : String
  content : List Nat
  contentType : String
deriving DecidableEq, Repr

/-- A per-descriptor image decoder: how one `ObjectDescriptor` becomes
an `Image`, or fails.  `NewImages` is external to the verified file, so
the handlers are parametric in the decoder. -/
def Decoder := ObjectDescriptor → Except String Image

/-- Modelled from the spec: `NewImages` / the Image Mapper,
`FromDescriptors([]ObjectDescriptor) -> ([]Image, error)` — "maps each
descriptor to an Image in input order; fails fast on first unmappable
descriptor, returning no partial result". -/
def NewImages (dec : Decoder) : List ObjectDescriptor → Except String (List Image)
  | [] => .ok []
  | d :: ds => do
    let i ← dec d
    let is ← NewImages dec ds
    .ok (i :: is)

/-- Modelled from the spec: the serializable rendering of an `Image`
(the JSON body the read handler returns for a found object).  The spec
leaves the encoding implementation-defined; the claims only consume it
through `writeJSON`. -/
def Image.JSON (i : Image) : Except String String :=
  .ok ("\x7b\"name\":\"" ++ i.name ++ "\"\x7d")

/-- Embeds Go `Message`: a two-field notification payload. -/
structure Message where
  text : String
  details : String
deriving DecidableEq, Repr

/-- One character of Go `encoding/json` string escaping (as performed by
`json.Marshal` with the default HTML-escaping encoder). -/
def goJsonEscapeChar (c : Char) : List Char :=
  if c = '"' then ['\\', '"']
  else if c = '\\' then ['\\', '\\']
  else if c = '\n' then ['\\', 'n']
  else if c = '\r' then ['\\', 'r']
  else if c = '\t' then ['\\', 't']
  else if c = '<' then ['\\', 'u', '0', '0', '3', 'c']
  else if c = '>' then ['\\', 'u', '0', '0', '3', 'e']
  else if c = '&' then ['\\', 'u', '0', '0', '2', '6']
  else if c.toNat < 0x20 then
    ['\\', 'u', '0', '0', (Nat.digitChar (c.toNat / 16)), (Nat.digitChar (c.toNat % 16))]
  else [c]

/-- Go `encoding/json` escaping of a whole string. -/
def goJsonEscape (s : String) : String :=
  ⟨s.data.flatMap goJsonEscapeChar⟩

/-- Embeds Go `Message.JSON`: `json.Marshal` of the two-field struct
with tags `text` and `details`; marshalling a struct of two strings
cannot fail, so the error branch is unreachable. -/
def Message.JSON (m : Message) : Except String String :=
  .ok ("\x7b\"text\":\"" ++ goJsonEscape m.text ++ "\",\"details\":\"" ++
       goJsonEscape m.details ++ "\"\x7d")

/-- Embeds Go `writeJSON(w, j, status)`: serialize the producer; on
serialization failure fall back to `writeErrorMsg`. -/
def writeJSON (j : Except String String) (status : Nat) : Response :=
  match j with
  | .error e => writeErrorMsg e
  | .ok s => writeResponse status s

/-- The result of running one handler: the HTTP response, the final
backend state, and the ordered trace of gateway calls performed. -/
structure HandlerResult (σ : Type) where
  response : Response
  state : σ
  trace : List GatewayCall
deriving Repr

variable {σ : Type}

/-- Embeds Go `listHandler`: list the bucket, map to images, return 200
with the JSON array; any failure goes through `writeErrorMsg`.  The
array serialization is external (`Images.JSON`), so the handler is
parametric in it. -/
def listHandler (dec : Decoder) (imagesJSON : List Image → Except String String)
    (g : Gateway σ) (s : σ) : HandlerResult σ :=
  match g.list s with
  | .error e => ⟨writeErrorMsg ("failed to list files: " ++ e), s, [.list]⟩
  | .ok fs =>
    match NewImages dec fs with
    | .error e =>
      ⟨writeErrorMsg ("failed to convert files to images images: " ++ e), s, [.list]⟩
    | .ok is => ⟨writeJSON (imagesJSON is) 200, s, [.list]⟩

/-- Embeds Go `createHandler`: discard the `ParseMultipartForm` error,
extract the `myFile` field, validate its `Content-Type` against the
hardcoded allow-list, then `Create`. -/
def createHandler (g : Gateway σ) (r : Request) (s : σ) : HandlerResult σ :=
  match r.formFile with
  | .error e => ⟨writeErrorMsg ("error retrieving file: " ++ e), s, []⟩
  | .ok file =>
    let mimemap := NewMimeMap ["image/png", "image/jpeg", "image/gif"]
    let mimetype := file.contentType
    if ¬ mimemap.Valid mimetype then
      let mimelist := mimemap.List
      ⟨writeErrorMsg ("invalid image type, want one of " ++ mimelist ++
        " got : " ++ mimetype), s, []⟩
    else
      match g.create s file.filename file.content with
      | .error e =>
        ⟨writeErrorMsg ("image couldn't be created: " ++ e), s,
         [.create file.filename file.content]⟩
      | .ok s1 => ⟨writeResponse 201 "", s1, [.create file.filename file.content]⟩

/-- Embeds Go `updateHandler`: discard the `ParseMultipartForm` error,
extract the `myFile` field, `Delete` the existing id, then `Create` the
new content under the uploaded filename.  Note: no MIME validation. -/
def updateHandler (g : Gateway σ) (r : Request) (id : String) (s : σ) :
    HandlerResult σ :=
  match r.formFile with
  | .error e => ⟨writeErrorMsg ("error retrieving file: " ++ e), s, []⟩
  | .ok file =>
    match g.delete s id with
    | .error e => ⟨writeErrorMsg ("error replacing file: " ++ e), s, [.delete id]⟩
    | .ok s1 =>
      match g.create s1 file.filename file.content with
      | .error e =>
        ⟨writeErrorMsg ("image couldn't be created: " ++ e), s1,
         [.delete id, .create file.filename file.content]⟩
      | .ok s2 =>
        ⟨writeResponse 200 "", s2, [.delete id, .create file.filename file.content]⟩

/-- Embeds Go `readHandler`: `Read` by id, map to images; zero images is
204 with empty body, otherwise serialize the first image with 200. -/
def readHandler (dec : Decoder) (g : Gateway σ) (s : σ) (id : String) :
    HandlerResult σ :=
  match g.read s id with
  | .error e =>
    ⟨writeErrorMsg ("failed to read files " ++ id ++ ": " ++ e), s, [.read id]⟩
  | .ok fs =>
    match NewImages dec fs with
    | .error e =>
      ⟨writeErrorMsg ("failed to convert files to images images: " ++ e), s, [.read id]⟩
    | .ok is =>
      match is with
      | [] => ⟨writeResponse 204 "", s, [.read id]⟩
      | i :: _ => ⟨writeJSON i.JSON 200, s, [.read id]⟩

/-- Embeds Go `deleteHandler`: `Delete` by id; on success answer 204
with the `Message` JSON body, on error pass the error through
`writeErrorMsg` unwrapped. -/
def deleteHandler (g : Gateway σ) (s : σ) (id : String) : HandlerResult σ :=
  match g.delete s id with
  | .error e => ⟨writeErrorMsg e, s, [.delete id]⟩
  | .ok s1 =>
    let msg : Message := ⟨"image deleted", "image id: " ++ id⟩
    ⟨writeJSON msg.JSON 204, s1, [.delete id]⟩

/-! ## In-memory storage backend, modelled from the spec

`CloudStorage` is not part of the verified file; the spec (§4.2)
specifies the gateway contract.  The round-trip claim needs a concrete
backend satisfying it. -/

/-- The in-memory backend state: stored objects, newest first. -/
abbrev Store := List ObjectDescriptor

/-- Modelled from the spec: the Storage Gateway contract of §4.2 over an
in-memory store.  `Create(name, content)` uploads content under the
name; `Read(id)` returns zero or one matching descriptor ("zero results
is not an error"); `Delete(id)` removes the named object; `List()`
returns all objects. -/
def memGateway (defaultType : String) : Gateway Store where
  list s := .ok s
  read s id :=
    .ok (match s.find? (fun d => d.name = id) with
         | some d => [d]
         | none => [])
  create s name content :=
    .ok (⟨name, content, defaultType⟩ :: s.filter (fun d => ¬ d.name = name))
  delete s id := .ok (s.filter (fun d => ¬ d.name = id))

/-- Modelled from the spec: the Image Mapper's per-descriptor decoding —
"the serializable projection of an ObjectDescriptor", whose content is
preserved (content-fidelity law, §8). -/
def specDecoder : Decoder :=
  fun d => .ok ⟨d.name, d.content, d.contentType⟩

/-- A gateway over the trivial state whose every operation succeeds
and returns nothing; used to instantiate handler theorems at concrete
inputs. -/
def unitGateway : Gateway Unit where
  list _ := .ok []
  read _ _ := .ok []
  create s _ _ := .ok s
  delete s _ := .ok s

/-- A gateway over the trivial state whose every operation fails with
the given error message. -/
def failGateway (e : String) : Gateway Unit where
  list _ := .error e
  read _ _ := .error e
  create _ _ _ := .error e
  delete _ _ := .error e

/-- A gateway over the trivial state whose `Delete` succeeds but whose
`Create` fails with the given error. -/
def createFailGateway (e : String) : Gateway Unit where
  list _ := .ok []
  read _ _ := .ok []
  create _ _ _ := .error e
  delete s _ := .ok s

/-- A hexadecimal digit, as JSON `\uXXXX` escapes allow. -/
def isHexDigitChar (c : Char) : Bool :=
  c.isDigit ∨ ('a' ≤ c ∧ c ≤ 'f') ∨ ('A' ≤ c ∧ c ≤ 'F')

/-- Scans a JSON string body after its opening quote (RFC 8259 string
grammar: no unescaped quote, backslash or control character; the
recognized escapes and `\uXXXX`): returns the characters after the
closing quote, or `none` when the prefix is not a valid JSON string.
The fuel argument only drives the recursion; every step consumes at
least one character, so any fuel above the input length is enough. -/
def jsonStringScan : Nat → List Char → Option (List Char)
  | 0, _ => none
  | _ + 1, [] => none
  | fuel + 1, c :: rest =>
    if c = '"' then some rest
    else if c = '\\' then
      match rest with
      | [] => none
      | e :: rest2 =>
        if e = 'u' then
          match rest2 with
          | a :: b :: c2 :: d :: rest3 =>
            if isHexDigitChar a ∧ isHexDigitChar b ∧ isHexDigitChar c2 ∧
                isHexDigitChar d then
              jsonStringScan fuel rest3
            else none
          | _ => none
        else if e = '"' ∨ e = '\\' ∨ e = '/' ∨ e = 'b' ∨ e = 'f' ∨ e = 'n' ∨
            e = 'r' ∨ e = 't' then
          jsonStringScan fuel rest2
        else none
    else if c.toNat < 0x20 then none
    else jsonStringScan fuel rest

/-- The JSON-string scanner at sufficient fuel. -/
def jsonStringTail (l : List Char) : Option (List Char) :=
  jsonStringScan (l.length + 1) l

/-- Whether a response body is a syntactically valid JSON document of
the shape `\x7b"error": <JSON string>\x7d` the spec promises for
failures. -/
def isValidErrorBody (s : String) : Bool :=
  match s.data with
  | '\x7b' :: '"' :: 'e' :: 'r' :: 'r' :: 'o' :: 'r' :: '"' :: ':' :: '"' :: rest =>
    match jsonStringTail rest with
    | some rem => rem = ['\x7d']
    | none => false
  | _ => false

/-! ## Theorems -/

/-- Membership in the `NewMimeMap` fold, generalized over the
accumulator. -/
theorem mem_newMimeMapFold (s : List String) (m : List String) (c : String) :
    c ∈ s.foldl (fun m v => if v ∈ m then m else m ++ [v]) m ↔ c ∈ m ∨ c ∈ s := by
  induction s generalizing m with
  | nil => simp
  | cons a t ih =>
    simp only [List.foldl_cons]
    by_cases h : a ∈ m
    · rw [if_pos h, ih]
      simp only [List.mem_cons]
      constructor
      · rintro (hm | ht)
        · exact Or.inl hm
        · exact Or.inr (Or.inr ht)
      · rintro (hm | rfl | ht)
        · exact Or.inl hm
        · exact Or.inl h
        · exact Or.inr ht
    · rw [if_neg h, ih]
      simp only [List.mem_append, List.mem_singleton, List.mem_cons]
      tauto

/-- C2: `NewMimeMap(s).Valid(c)` returns `true` iff `c` is exactly
(byte-for-byte) an element of `s`; with `s = []` every candidate is
invalid. -/
theorem newMimeMap_valid_iff_mem (s : List String) (c : String) :
    ((NewMimeMap s).Valid c = true ↔ c ∈ s) ∧
    (NewMimeMap []).Valid c = false := by
  constructor
  · rw [MimeMap.Valid, List.elem_iff, NewMimeMap, mem_newMimeMapFold]
    simp
  · rfl

/-- C1: a create request whose uploaded file's `Content-Type` is outside
the allow-list `{"image/png", "image/jpeg", "image/gif"}` answers 500
with the body `{"error":"invalid image type, want one of <rendered
allow-list> got : <the offending type>"}`, performs no gateway call at
all (in particular `Create` is never invoked) and leaves the backend
state unchanged. -/
theorem createHandler_rejects_invalid_mime {σ : Type} (g : Gateway σ) (r : Request)
    (s : σ) (f : UploadedFile) (hf : r.formFile = Except.ok f)
    (hbad : f.contentType ∉ (["image/png", "image/jpeg", "image/gif"] : List String)) :
    createHandler g r s =
      ⟨⟨500, "\x7b\"error\":\"" ++
          ("invalid image type, want one of " ++ "image/png, image/jpeg, image/gif" ++
           " got : " ++ f.contentType) ++ "\"\x7d"⟩, s, []⟩ ∧
    ∀ name content, GatewayCall.create name content ∉ (createHandler g r s).trace := by
  have hv : ¬ ((NewMimeMap ["image/png", "image/jpeg", "image/gif"]).Valid
      f.contentType = true) := by
    intro h
    rw [MimeMap.Valid, List.elem_iff, NewMimeMap, mem_newMimeMapFold] at h
    simp only [List.not_mem_nil, false_or] at h
    exact hbad h
  have hmain : createHandler g r s =
      ⟨⟨500, "\x7b\"error\":\"" ++
          ("invalid image type, want one of " ++ "image/png, image/jpeg, image/gif" ++
           " got : " ++ f.contentType) ++ "\"\x7d"⟩, s, []⟩ := by
    rw [createHandler, hf]
    simp only [if_pos hv]
    rfl
  refine ⟨hmain, ?_⟩
  intro name content
  rw [hmain]
  simp

/-- Witness for C1 at a concrete request with `Content-Type: image/bmp`. -/
theorem createHandler_rejects_invalid_mime_witness :
    createHandler unitGateway
        ⟨none, Except.ok ⟨"cat.bmp", "image/bmp", [1, 2]⟩⟩ () =
      ⟨⟨500, "\x7b\"error\":\"" ++
          ("invalid image type, want one of " ++ "image/png, image/jpeg, image/gif" ++
           " got : " ++ "image/bmp") ++ "\"\x7d"⟩, (), []⟩ :=
  (createHandler_rejects_invalid_mime unitGateway
      ⟨none, Except.ok ⟨"cat.bmp", "image/bmp", [1, 2]⟩⟩ ()
      ⟨"cat.bmp", "image/bmp", [1, 2]⟩ rfl (by decide)).1

/-- C3: when `Read` returns zero descriptors and no error, the read
handler answers 204 with an empty body (the Image Mapper on the empty
sequence succeeds with the empty sequence, so no JSON object is ever
emitted). -/
theorem readHandler_not_found {σ : Type} (dec : Decoder) (g : Gateway σ) (s : σ)
    (id : String) (h : g.read s id = Except.ok []) :
    readHandler dec g s id = ⟨⟨204, ""⟩, s, [.read id]⟩ := by
  rw [readHandler, h]
  rfl

/-- Witness for C3 at the all-empty gateway and id `"ghost"`. -/
theorem readHandler_not_found_witness :
    readHandler specDecoder unitGateway () "ghost" = ⟨⟨204, ""⟩, (), [.read "ghost"]⟩ :=
  readHandler_not_found specDecoder unitGateway () "ghost" rfl

/-- Characters that `encoding/json` escaping leaves unchanged pass
through `goJsonEscape` unchanged. -/
theorem goJsonEscape_of_plain (s : String)
    (h : ∀ c ∈ s.data, goJsonEscapeChar c = [c]) : goJsonEscape s = s := by
  have hl : ∀ l : List Char, (∀ c ∈ l, goJsonEscapeChar c = [c]) →
      l.flatMap goJsonEscapeChar = l := by
    intro l hc
    induction l with
    | nil => rfl
    | cons a t ih =>
      rw [List.flatMap_cons, hc a (List.mem_cons_self a t),
        ih (fun c hm => hc c (List.mem_cons_of_mem a hm))]
      rfl
  rw [goJsonEscape, hl s.data h]

/-- `goJsonEscape` distributes over string append. -/
theorem goJsonEscape_append (a b : String) :
    goJsonEscape (a ++ b) = goJsonEscape a ++ goJsonEscape b := by
  rw [goJsonEscape, goJsonEscape, goJsonEscape]
  show String.mk ((a.data ++ b.data).flatMap goJsonEscapeChar) = _
  rw [List.flatMap_append]
  rfl

/-- C4: when `Delete` succeeds, the delete handler answers status 204
and body exactly `{"text":"image deleted","details":"image id: <id>"}`
(a non-empty JSON `Message` body despite the 204 status); when `Delete`
errors, it answers 500 with the error JSON body.  The id is assumed to
contain no characters that `json.Marshal` escapes, so it appears
verbatim. -/
theorem deleteHandler_response {σ : Type} (g : Gateway σ) (s : σ) (id : String)
    (hplain : ∀ c ∈ id.data, goJsonEscapeChar c = [c]) :
    (∀ s', g.delete s id = Except.ok s' →
      deleteHandler g s id =
        ⟨⟨204, "\x7b\"text\":\"image deleted\",\"details\":\"image id: " ++ id ++ "\"\x7d"⟩,
         s', [.delete id]⟩) ∧
    (∀ e, g.delete s id = Except.error e →
      deleteHandler g s id = ⟨⟨500, "\x7b\"error\":\"" ++ e ++ "\"\x7d"⟩, s, [.delete id]⟩) := by
  constructor
  · intro s' hok
    rw [deleteHandler, hok]
    show HandlerResult.mk
      ⟨204, "\x7b\"text\":\"" ++ goJsonEscape "image deleted" ++ "\",\"details\":\"" ++
        goJsonEscape ("image id: " ++ id) ++ "\"\x7d"⟩ s' [.delete id] = _
    rw [goJsonEscape_append, goJsonEscape_of_plain id hplain]
    rfl
  · intro e herr
    rw [deleteHandler, herr]
    rfl

/-- Witness for C4 at id `"42"`: the success case on the trivial
gateway and the failure case on the failing gateway. -/
theorem deleteHandler_response_witness :
    deleteHandler unitGateway () "42" =
      ⟨⟨204, "\x7b\"text\":\"image deleted\",\"details\":\"image id: 42\"\x7d"⟩,
       (), [.delete "42"]⟩ ∧
    deleteHandler (failGateway "boom") () "42" =
      ⟨⟨500, "\x7b\"error\":\"boom\"\x7d"⟩, (), [.delete "42"]⟩ :=
  ⟨(deleteHandler_response unitGateway () "42" (by decide)).1 () rfl,
   (deleteHandler_response (failGateway "boom") () "42" (by decide)).2 "boom" rfl⟩

/-- C5: the update handler calls `Delete(id)` first and calls `Create`
(with the uploaded file's name and content) only after `Delete`
succeeds; a `Delete` failure answers 500 with `Create` never invoked;
`Delete` success followed by `Create` failure answers 500, the trace
ends there (no compensating call), and the final state is exactly the
post-`Delete` state in which the id is absent; success of both answers
200 with an empty body. -/
theorem updateHandler_delete_then_create {σ : Type} (g : Gateway σ) (r : Request)
    (id : String) (s : σ) (f : UploadedFile) (hf : r.formFile = Except.ok f) :
    (∀ e, g.delete s id = Except.error e →
      updateHandler g r id s =
        ⟨⟨500, "\x7b\"error\":\"error replacing file: " ++ e ++ "\"\x7d"⟩,
         s, [.delete id]⟩) ∧
    (∀ s1, g.delete s id = Except.ok s1 →
      (∀ e, g.create s1 f.filename f.content = Except.error e →
        updateHandler g r id s =
          ⟨⟨500, "\x7b\"error\":\"image couldn't be created: " ++ e ++ "\"\x7d"⟩,
           s1, [.delete id, .create f.filename f.content]⟩) ∧
      (∀ s2, g.create s1 f.filename f.content = Except.ok s2 →
        updateHandler g r id s =
          ⟨⟨200, ""⟩, s2, [.delete id, .create f.filename f.content]⟩)) := by
  refine ⟨?_, ?_⟩
  · intro e hdel
    simp only [updateHandler, hf, hdel]
    rfl
  · intro s1 hdel
    refine ⟨?_, ?_⟩
    · intro e hcr
      simp only [updateHandler, hf, hdel, hcr]
      rfl
    · intro s2 hcr
      simp only [updateHandler, hf, hdel, hcr]
      rfl

/-- Witness for C5: the delete-failure, create-failure and all-success
paths at concrete gateways and the file `new.png`. -/
theorem updateHandler_delete_then_create_witness :
    updateHandler (failGateway "gone") ⟨none, Except.ok ⟨"new.png", "image/png", [3]⟩⟩
        "old" () =
      ⟨⟨500, "\x7b\"error\":\"error replacing file: gone\"\x7d"⟩, (), [.delete "old"]⟩ ∧
    updateHandler (createFailGateway "disk full")
        ⟨none, Except.ok ⟨"new.png", "image/png", [3]⟩⟩ "old" () =
      ⟨⟨500, "\x7b\"error\":\"image couldn't be created: disk full\"\x7d"⟩,
       (), [.delete "old", .create "new.png" [3]]⟩ ∧
    updateHandler unitGateway ⟨none, Except.ok ⟨"new.png", "image/png", [3]⟩⟩
        "old" () =
      ⟨⟨200, ""⟩, (), [.delete "old", .create "new.png" [3]]⟩ :=
  ⟨(updateHandler_delete_then_create (failGateway "gone")
      ⟨none, Except.ok ⟨"new.png", "image/png", [3]⟩⟩ "old" ()
      ⟨"new.png", "image/png", [3]⟩ rfl).1 "gone" rfl,
   ((updateHandler_delete_then_create (createFailGateway "disk full")
      ⟨none, Except.ok ⟨"new.png", "image/png", [3]⟩⟩ "old" ()
      ⟨"new.png", "image/png", [3]⟩ rfl).2 () rfl).1 "disk full" rfl,
   ((updateHandler_delete_then_create unitGateway
      ⟨none, Except.ok ⟨"new.png", "image/png", [3]⟩⟩ "old" ()
      ⟨"new.png", "image/png", [3]⟩ rfl).2 () rfl).2 () rfl⟩

/-- C6 counterexample: on the update route a file of content type
`text/plain` — invalid under the allow-list, as the `Valid` evaluation
shows — is accepted with status 200 and `Create` is invoked, so the
update handler does not consult the MIME Validator before calling the
Storage Gateway. -/
theorem updateHandler_accepts_invalid_mime :
    (NewMimeMap ["image/png", "image/jpeg", "image/gif"]).Valid "text/plain" = false ∧
    updateHandler unitGateway ⟨none, Except.ok ⟨"evil.txt", "text/plain", [9]⟩⟩
        "a" () =
      ⟨⟨200, ""⟩, (), [.delete "a", .create "evil.txt" [9]]⟩ :=
  ⟨rfl, rfl⟩

/-- C6 amended: the update handler performs no MIME validation at all —
its outcome (response, final state and gateway-call trace) is
independent of the uploaded file's content type, so files of any
content type are stored. -/
theorem updateHandler_ignores_contentType {σ : Type} (g : Gateway σ)
    (p : Option String) (f : UploadedFile) (ct : String) (id : String) (s : σ) :
    updateHandler g ⟨p, Except.ok f⟩ id s =
      updateHandler g ⟨p, Except.ok ⟨f.filename, ct, f.content⟩⟩ id s := rfl

/-- C7 counterexample: for the error message `a"b` (a double quote in
the message), `writeErrorMsg` emits the body `\x7b"error":"a"b"\x7d`,
which is not a syntactically valid JSON document, so error bodies are
not valid JSON for every possible message. -/
theorem writeErrorMsg_not_always_valid_json :
    writeErrorMsg "a\"b" = ⟨500, "\x7b\"error\":\"a\"b\"\x7d"⟩ ∧
    isValidErrorBody (writeErrorMsg "a\"b").body = false :=
  ⟨rfl, by decide⟩

/-- C7 amended: every failure response is status 500 with body exactly
the message interpolated verbatim into `\x7b"error":"<message>"\x7d`
with no escaping; that body is a syntactically valid JSON document
whenever the message contains no double quote, backslash or control
character (but not for every possible message). -/
theorem writeErrorMsg_literal_body (msg : String) :
    writeErrorMsg msg = ⟨500, "\x7b\"error\":\"" ++ msg ++ "\"\x7d"⟩ ∧
    ((∀ c ∈ msg.data, c ≠ '"' ∧ c ≠ '\\' ∧ 0x20 ≤ c.toNat) →
      isValidErrorBody (writeErrorMsg msg).body = true) := by
  have hscan : ∀ (l : List Char), (∀ c ∈ l, c ≠ '"' ∧ c ≠ '\\' ∧ 0x20 ≤ c.toNat) →
      ∀ (rest : List Char) (fuel : Nat), l.length < fuel →
      jsonStringScan fuel (l ++ ('"' :: rest)) = some rest := by
    intro l
    induction l with
    | nil =>
      intro _ rest fuel hf
      match fuel, hf with
      | k + 1, _ => rfl
    | cons a t ih =>
      intro hl rest fuel hf
      obtain ⟨h1, h2, h3⟩ := hl a (List.mem_cons_self a t)
      match fuel, hf with
      | k + 1, hf =>
        rw [List.cons_append]
        simp only [jsonStringScan]
        rw [if_neg h1, if_neg h2, if_neg (Nat.not_lt.mpr h3)]
        exact ih (fun c hm => hl c (List.mem_cons_of_mem a hm)) rest k
          (Nat.lt_of_succ_lt_succ hf)
  refine ⟨rfl, ?_⟩
  intro hplain
  have hbody : isValidErrorBody ("\x7b\"error\":\"" ++ msg ++ "\"\x7d") =
      (match jsonStringTail (msg.data ++ ('"' :: ['\x7d'])) with
       | some rem => decide (rem = ['\x7d'])
       | none => false) := rfl
  show isValidErrorBody ("\x7b\"error\":\"" ++ msg ++ "\"\x7d") = true
  rw [hbody, jsonStringTail,
    hscan msg.data hplain ['\x7d'] _
      (by simp only [List.length_append, List.length_cons]; omega)]
  rfl

/-- Witness for C7's amended theorem at the message `boom`, which
contains no character needing JSON escaping. -/
theorem writeErrorMsg_literal_body_witness :
    writeErrorMsg "boom" = ⟨500, "\x7b\"error\":\"boom\"\x7d"⟩ ∧
    isValidErrorBody (writeErrorMsg "boom").body = true :=
  ⟨(writeErrorMsg_literal_body "boom").1,
   (writeErrorMsg_literal_body "boom").2 (by decide)⟩

/-- C8: round-trip content fidelity over the in-memory backend — an
object created via the create handler with filename `N` and an allowed
content type, then fetched via the read handler at id `N`, answers 201
on create and 200 on read with an `Image` whose content equals the
uploaded content. -/
theorem create_then_read_roundtrip (d : String) (s : Store) (r : Request)
    (f : UploadedFile) (hf : r.formFile = Except.ok f)
    (hmime : f.contentType ∈ (["image/png", "image/jpeg", "image/gif"] : List String)) :
    (createHandler (memGateway d) r s).response = ⟨201, ""⟩ ∧
    ∃ img : Image, img.content = f.content ∧
      readHandler specDecoder (memGateway d)
          (createHandler (memGateway d) r s).state f.filename =
        ⟨writeJSON img.JSON 200, (createHandler (memGateway d) r s).state,
         [.read f.filename]⟩ := by
  have hv : (NewMimeMap ["image/png", "image/jpeg", "image/gif"]).Valid
      f.contentType = true := by
    rw [MimeMap.Valid]
    exact List.elem_iff.mpr
      ((mem_newMimeMapFold ["image/png", "image/jpeg", "image/gif"] []
        f.contentType).mpr (Or.inr hmime))
  have hcreate : createHandler (memGateway d) r s =
      ⟨⟨201, ""⟩,
       ⟨f.filename, f.content, d⟩ :: s.filter (fun dd => ¬ dd.name = f.filename),
       [.create f.filename f.content]⟩ := by
    simp only [createHandler, hf]
    rw [if_neg (fun hc => hc hv)]
    rfl
  have hfind : (memGateway d).read
      (⟨f.filename, f.content, d⟩ ::
        s.filter (fun dd => ¬ dd.name = f.filename)) f.filename =
      Except.ok [⟨f.filename, f.content, d⟩] := by
    simp only [memGateway]
    rw [List.find?_cons_of_pos _ (by simp)]
  have hread : readHandler specDecoder (memGateway d)
      (⟨f.filename, f.content, d⟩ ::
        s.filter (fun dd => ¬ dd.name = f.filename)) f.filename =
      ⟨writeJSON (Image.JSON ⟨f.filename, f.content, d⟩) 200,
       ⟨f.filename, f.content, d⟩ ::
         s.filter (fun dd => ¬ dd.name = f.filename),
       [.read f.filename]⟩ := by
    simp only [readHandler, hfind]
    rfl
  refine ⟨by rw [hcreate], ⟨f.filename, f.content, d⟩, rfl, ?_⟩
  rw [hcreate]
  exact hread

/-- Witness for C8: create `cat.png` with bytes `[9, 9]` on the empty
store, then read id `cat.png`. -/
theorem create_then_read_roundtrip_witness :
    (createHandler (memGateway "image/png")
        ⟨none, Except.ok ⟨"cat.png", "image/png", [9, 9]⟩⟩ []).response = ⟨201, ""⟩ ∧
    ∃ img : Image, img.content = [9, 9] ∧
      readHandler specDecoder (memGateway "image/png")
          (createHandler (memGateway "image/png")
            ⟨none, Except.ok ⟨"cat.png", "image/png", [9, 9]⟩⟩ []).state "cat.png" =
        ⟨writeJSON img.JSON 200,
         (createHandler (memGateway "image/png")
           ⟨none, Except.ok ⟨"cat.png", "image/png", [9, 9]⟩⟩ []).state,
         [.read "cat.png"]⟩ :=
  create_then_read_roundtrip "image/png" []
    ⟨none, Except.ok ⟨"cat.png", "image/png", [9, 9]⟩⟩
    ⟨"cat.png", "image/png", [9, 9]⟩ rfl (by decide)

/-- C9 counterexample: when the backend reports "already absent" as an
error for an id with no corresponding object, the delete handler
answers 500 with the error JSON body — not the success-shaped 204
Message output the claim promises regardless of the backend's report. -/
theorem deleteHandler_error_not_success :
    deleteHandler (failGateway "object already absent") () "ghost" =
      ⟨⟨500, "\x7b\"error\":\"object already absent\"\x7d"⟩, (), [.delete "ghost"]⟩ ∧
    (deleteHandler (failGateway "object already absent") () "ghost").response.status ≠
      204 :=
  ⟨rfl, by decide⟩

/-- C9 amended: the delete handler has no not-found path of its own.
Over the in-memory backend, which reports no error for an absent id,
deleting an id with no corresponding object answers the success-shaped
204 Message output and leaves the store unchanged, and its response is
identical to the response for deleting an existing id; only a backend
that reports the absence as an error produces the 500 path. -/
theorem deleteHandler_absent_id (d : String) (s : Store) (id : String)
    (habs : ∀ dd ∈ s, dd.name ≠ id)
    (hplain : ∀ c ∈ id.data, goJsonEscapeChar c = [c]) :
    deleteHandler (memGateway d) s id =
      ⟨⟨204, "\x7b\"text\":\"image deleted\",\"details\":\"image id: " ++ id ++
        "\"\x7d"⟩, s, [.delete id]⟩ ∧
    ∀ (content : List Nat),
      (deleteHandler (memGateway d) (⟨id, content, d⟩ :: s) id).response =
        (deleteHandler (memGateway d) s id).response := by
  have hfil : s.filter (fun dd => ¬ dd.name = id) = s :=
    List.filter_eq_self.mpr (fun a ha => by simp [habs a ha])
  constructor
  · show HandlerResult.mk (writeJSON (Message.JSON ⟨"image deleted", "image id: " ++ id⟩) 204)
      (s.filter (fun dd => ¬ dd.name = id)) [.delete id] = _
    rw [hfil]
    show HandlerResult.mk
      ⟨204, "\x7b\"text\":\"" ++ goJsonEscape "image deleted" ++ "\",\"details\":\"" ++
        goJsonEscape ("image id: " ++ id) ++ "\"\x7d"⟩ s [.delete id] = _
    rw [goJsonEscape_append, goJsonEscape_of_plain id hplain]
    rfl
  · intro content
    rfl

/-- Witness for C9's amended theorem: the empty store and id `ghost`. -/
theorem deleteHandler_absent_id_witness :
    deleteHandler (memGateway "image/png") [] "ghost" =
      ⟨⟨204, "\x7b\"text\":\"image deleted\",\"details\":\"image id: ghost\"\x7d"⟩,
       [], [.delete "ghost"]⟩ :=
  (deleteHandler_absent_id "image/png" [] "ghost" (by simp) (by decide)).1

/-- C10: both the create and update handlers ignore the result of
multipart-form parsing (their outcome is independent of it), and on a
failing file-field extraction both answer 500 with the
"error retrieving file" message, having performed no gateway call at
all and leaving the backend state unchanged. -/
theorem handlers_discard_parse_form_error {σ : Type} (g : Gateway σ)
    (ff : Except String UploadedFile) (e1 e2 : Option String) (id : String) (s : σ) :
    (createHandler g ⟨e1, ff⟩ s = createHandler g ⟨e2, ff⟩ s ∧
     updateHandler g ⟨e1, ff⟩ id s = updateHandler g ⟨e2, ff⟩ id s) ∧
    (∀ msg, ff = Except.error msg →
      createHandler g ⟨e1, ff⟩ s =
        ⟨⟨500, "\x7b\"error\":\"error retrieving file: " ++ msg ++ "\"\x7d"⟩, s, []⟩ ∧
      updateHandler g ⟨e1, ff⟩ id s =
        ⟨⟨500, "\x7b\"error\":\"error retrieving file: " ++ msg ++ "\"\x7d"⟩, s, []⟩) := by
  refine ⟨⟨rfl, rfl⟩, ?_⟩
  intro msg hmsg
  subst hmsg
  exact ⟨rfl, rfl⟩

/-- Witness for C10 at a request whose multipart body fails to parse
and whose file field is absent. -/
theorem handlers_discard_parse_form_error_witness :
    createHandler unitGateway
        ⟨some "parse failed", Except.error "http: no such file"⟩ () =
      ⟨⟨500, "\x7b\"error\":\"error retrieving file: http: no such file\"\x7d"⟩,
       (), []⟩ ∧
    updateHandler unitGateway
        ⟨some "parse failed", Except.error "http: no such file"⟩ "a" () =
      ⟨⟨500, "\x7b\"error\":\"error retrieving file: http: no such file\"\x7d"⟩,
       (), []⟩ :=
  (handlers_discard_parse_form_error unitGateway (Except.error "http: no such file")
    (some "parse failed") none "a" ()).2 "http: no such file" rfl

end Scaler
